import Mathlib

/-!
Verification of the `@trackit/di-container` wrapper.

The wrapper (src/Token.ts, src/register.ts, src/unnamed/part_000 = inject,
src/reset.ts, Provider definitions in src/reset.ts part 2) is a thin typed
layer over an external injection runtime.  We embed it shallowly:

* instances are opaque identities (`Inst`): `Inst.val k` stands for an
  externally supplied object (a value-provider payload), `Inst.alloc n` for
  the n-th object freshly produced by the runtime (a class instantiation or
  a factory result).  Equality of `Inst` values models reference identity.
* the external runtime's container is modelled from the spec's collaborator
  contract (section 6): identity-keyed storage, a registration-exists query,
  singleton-caching factory semantics, and a full-clear operation.  Its
  state is explicit (`St`), with ghost logs counting constructor and factory
  invocations.
* provider objects are a record of three optional fields, because the
  wrapper discriminates the provider shape at run time by field presence
  (isClassProvider / isValueProvider / isFactoryProvider).
-/

/-- An opaque runtime object.  `val k` is an externally created object handed
to a value provider; `alloc n` is the n-th object produced inside the
container (class instantiation or factory invocation).  Equality models
JavaScript reference identity. -/
inductive Inst where
  | val (k : Nat)
  | alloc (n : Nat)
deriving DecidableEq, Repr

/-- Identity of a class constructor handed to a class provider. -/
abbrev ClassId := Nat

/-- Identity of a factory function handed to a factory provider. -/
abbrev FactoryId := Nat

/-- A provider object as it exists at run time: a record that may carry any
subset of the three distinguishing fields (`useClass`, `useValue`,
`useFactory`); `none` models an absent / undefined field.  The wrapper's
type `Provider<T>` is the union of the three single-field shapes, but the
code discriminates by field presence, so the embedding keeps all three
fields. -/
structure Provider where
  useClass : Option ClassId
  useValue : Option Inst
  useFactory : Option FactoryId
deriving DecidableEq, Repr

/-- From src/reset.ts (Provider part): a provider is a value provider when
its `useValue` field is not undefined. -/
def isValueProvider (p : Provider) : Bool :=
  p.useValue.isSome

/-- From src/reset.ts (Provider part): a provider is a factory provider when
its `useFactory` field is not undefined. -/
def isFactoryProvider (p : Provider) : Bool :=
  p.useFactory.isSome

/-- From src/reset.ts (Provider part): a provider is a class provider when
its `useClass` field is not undefined. -/
def isClassProvider (p : Provider) : Bool :=
  p.useClass.isSome

/-- A provider that conforms to at least one of the three provider shapes
of the `Provider<T>` union type. -/
def isShaped (p : Provider) : Bool :=
  isClassProvider p || isValueProvider p || isFactoryProvider p

/-- From src/Token.ts: a token pairs a process-unique symbol with a debug
name and an optional default provider.  `Symbol(name)` is modelled by a
`Nat` drawn from a monotone counter at creation time. -/
structure Token where
  symbol : Nat
  name : String
  defaultProvider : Option Provider
deriving DecidableEq, Repr

/-- A binding installed in the container registry by `register`:
value providers store the instance directly; class and factory providers are
installed with singleton / instance-caching semantics, so their binding
carries an instance cache that is filled on first resolution. -/
inductive Binding where
  | value (v : Inst)
  | cls (c : ClassId) (cache : Option Inst)
  | factory (f : FactoryId) (cache : Option Inst)
deriving DecidableEq, Repr

/-- The provider part of a binding, with the resolution cache erased.  Used
to state that a binding is stable even while its cache fills in. -/
inductive BSpec where
  | value (v : Inst)
  | cls (c : ClassId)
  | factory (f : FactoryId)
deriving DecidableEq, Repr

/-- Erase the cache of a binding. -/
def specOf : Binding → BSpec
  | Binding.value v => BSpec.value v
  | Binding.cls c _ => BSpec.cls c
  | Binding.factory f _ => BSpec.factory f

/-- The two error kinds of the wrapper: duplicate registration (thrown by
`register`, carrying the token's debug name) and unresolved token (thrown by
the runtime's resolve when no binding exists). -/
inductive Err where
  | duplicate (name : String)
  | unresolved
deriving DecidableEq, Repr

/-- Modelled from the spec: the whole observable state of the external
injection runtime plus ghost instrumentation.  `registry` is the
identity-keyed store (token symbol to binding); `nextAlloc` feeds fresh
object identities; `classRuns` and `factoryRuns` are ghost logs recording
every constructor and factory invocation; `tokenCounter` feeds fresh token
symbols. -/
structure St where
  registry : List (Nat × Binding)
  nextAlloc : Nat
  classRuns : List ClassId
  factoryRuns : List FactoryId
  tokenCounter : Nat
deriving DecidableEq, Repr

/-- The empty container state. -/
def St.empty : St :=
  ⟨[], 0, [], [], 0⟩

/-- Look up the binding stored under a symbol (first matching entry). -/
def findB (l : List (Nat × Binding)) (sym : Nat) : Option Binding :=
  (l.find? (fun e => e.1 == sym)).map Prod.snd

/-- Modelled from the spec: the runtime's registration-exists query
(`container.isRegistered`). -/
def isRegistered (s : St) (sym : Nat) : Bool :=
  (s.registry.find? (fun e => e.1 == sym)).isSome

/-- The binding currently held for a symbol. -/
def lookupBinding (s : St) (sym : Nat) : Option Binding :=
  findB s.registry sym

/-- The cache-erased binding currently held for a symbol. -/
def lookupSpec (s : St) (sym : Nat) : Option BSpec :=
  (lookupBinding s sym).map specOf

/-- Number of registry entries stored under a symbol. -/
def bindingCount (s : St) (sym : Nat) : Nat :=
  s.registry.countP (fun e => e.1 == sym)

/-- From src/register.ts: reject a duplicate registration, otherwise install
the binding of the first matching provider shape, testing `useClass`, then
`useValue`, then `useFactory`.  A class provider is installed with singleton
lifecycle and a factory provider behind `instanceCachingFactory`, both
modelled as cached bindings; a provider with none of the three fields
defined falls through every branch and installs nothing. -/
def register (s : St) (t : Token) (p : Provider) : Except Err St :=
  if isRegistered s t.symbol then
    Except.error (Err.duplicate t.name)
  else
    match p.useClass with
    | some c => Except.ok { s with registry := (t.symbol, Binding.cls c none) :: s.registry }
    | none =>
      match p.useValue with
      | some v => Except.ok { s with registry := (t.symbol, Binding.value v) :: s.registry }
      | none =>
        match p.useFactory with
        | some f =>
          Except.ok { s with registry := (t.symbol, Binding.factory f none) :: s.registry }
        | none => Except.ok s

/-- Fill the resolution cache of a binding (value bindings have no cache). -/
def withCache : Binding → Inst → Binding
  | Binding.value v, _ => Binding.value v
  | Binding.cls c _, i => Binding.cls c (some i)
  | Binding.factory f _, i => Binding.factory f (some i)

/-- Fill the cache of the first registry entry stored under `sym`. -/
def setCacheList : List (Nat × Binding) → Nat → Inst → List (Nat × Binding)
  | [], _, _ => []
  | (k, b) :: rest, sym, i =>
    if k == sym then (k, withCache b i) :: rest
    else (k, b) :: setCacheList rest sym i

/-- Modelled from the spec: the runtime's `container.resolve` under the
collaborator contract of section 6.  An unbound symbol fails with the
unresolved-token error; a value binding returns its instance; a class or
factory binding returns its cached instance if present, otherwise it
produces a fresh instance (running the constructor or the factory, recorded
in the ghost log), caches it, and returns it. -/
def resolve (s : St) (sym : Nat) : Except Err (Inst × St) :=
  match lookupBinding s sym with
  | none => Except.error Err.unresolved
  | some (Binding.value v) => Except.ok (v, s)
  | some (Binding.cls _ (some i)) => Except.ok (i, s)
  | some (Binding.cls c none) =>
    Except.ok (Inst.alloc s.nextAlloc,
      { s with
        registry := setCacheList s.registry sym (Inst.alloc s.nextAlloc)
        nextAlloc := s.nextAlloc + 1
        classRuns := c :: s.classRuns })
  | some (Binding.factory _ (some i)) => Except.ok (i, s)
  | some (Binding.factory f none) =>
    Except.ok (Inst.alloc s.nextAlloc,
      { s with
        registry := setCacheList s.registry sym (Inst.alloc s.nextAlloc)
        nextAlloc := s.nextAlloc + 1
        factoryRuns := f :: s.factoryRuns })

/-- From src/unnamed/part_000: if the token is not registered and carries a
default provider, register that default provider first (propagating any
error), then resolve the token's symbol. -/
def inject (s : St) (t : Token) : Except Err (Inst × St) :=
  match t.defaultProvider, isRegistered s t.symbol with
  | some dp, false =>
    match register s t dp with
    | Except.error e => Except.error e
    | Except.ok s' => resolve s' t.symbol
  | _, _ => resolve s t.symbol

/-- From src/reset.ts: clear every binding (and hence every cached
instance) from the registry. -/
def reset (s : St) : St :=
  { s with registry := [] }

/-- From src/Token.ts: create a token carrying a fresh symbol
(`Symbol(name)`), the debug name, and the optional default provider. -/
def createInjectionToken (s : St) (name : String) (dp : Option Provider) : Token × St :=
  (⟨s.tokenCounter, name, dp⟩, { s with tokenCounter := s.tokenCounter + 1 })

/-- Create one token per (name, default provider) specification, in order. -/
def createTokens (s : St) : List (String × Option Provider) → List Token × St
  | [] => ([], s)
  | (nm, dp) :: rest =>
    let r := createInjectionToken s nm dp
    let r2 := createTokens r.2 rest
    (r.1 :: r2.1, r2.2)

/-- Perform `n` consecutive `inject` calls on the same token, collecting the
returned instances; the first error aborts. -/
def injectN : Nat → St → Token → Except Err (List Inst × St)
  | 0, s, _ => Except.ok ([], s)
  | n + 1, s, t =>
    match inject s t with
    | Except.error e => Except.error e
    | Except.ok (i, s') =>
      match injectN n s' t with
      | Except.error e => Except.error e
      | Except.ok (is, s'') => Except.ok (i :: is, s'')

/-- The binding `register` installs for a provider, following the source's
discrimination order (`useClass`, then `useValue`, then `useFactory`);
`none` when no field is defined. -/
def installedBinding (p : Provider) : Option Binding :=
  match p.useClass with
  | some c => some (Binding.cls c none)
  | none =>
    match p.useValue with
    | some v => some (Binding.value v)
    | none =>
      match p.useFactory with
      | some f => some (Binding.factory f none)
      | none => none

/-- The instance the first resolution derives from a freshly installed
provider in state `s`: the registered instance for a value provider, a
fresh allocation for a class or factory provider. -/
def derivedInstance (p : Provider) (s : St) : Inst :=
  match p.useClass with
  | some _ => Inst.alloc s.nextAlloc
  | none =>
    match p.useValue with
    | some v => v
    | none => Inst.alloc s.nextAlloc

/-- An API call against the container: a `register` call or an `inject`
call (`reset` is deliberately excluded, to state stability until reset). -/
inductive Op where
  | regOp (t : Token) (p : Provider)
  | injOp (t : Token)
deriving DecidableEq, Repr

/-- Run one call; a thrown error leaves the state unchanged (both wrapper
errors are raised before any mutation). -/
def runOp (s : St) : Op → St
  | Op.regOp t p =>
    match register s t p with
    | Except.ok s' => s'
    | Except.error _ => s
  | Op.injOp t =>
    match inject s t with
    | Except.ok (_, s') => s'
    | Except.error _ => s

/-- Run a sequence of calls. -/
def runOps (s : St) : List Op → St
  | [] => s
  | op :: rest => runOps (runOp s op) rest

/-- The spec's description of resolution with a default provider (section
4.3): first perform the equivalent of `register(token, defaultProvider)`,
then resolve the token. -/
def registerThenResolve (s : St) (t : Token) (p : Provider) : Except Err (Inst × St) :=
  match register s t p with
  | Except.error e => Except.error e
  | Except.ok s' => resolve s' t.symbol

/-! ## Basic lemmas about lookup and registration -/

theorem lookupBinding_eq_none_of_not_registered (s : St) (sym : Nat)
    (h : isRegistered s sym = false) : lookupBinding s sym = none := by
  unfold isRegistered at h
  unfold lookupBinding findB
  cases hf : s.registry.find? (fun e => e.1 == sym) with
  | none => rfl
  | some e => rw [hf] at h; simp at h

theorem isRegistered_of_lookupBinding (s : St) (sym : Nat) (b : Binding)
    (h : lookupBinding s sym = some b) : isRegistered s sym = true := by
  unfold lookupBinding findB at h
  unfold isRegistered
  cases hf : s.registry.find? (fun e => e.1 == sym) with
  | none => rw [hf] at h; simp at h
  | some e => rfl

theorem isRegistered_eq_lookupSpec_isSome (s : St) (sym : Nat) :
    isRegistered s sym = (lookupSpec s sym).isSome := by
  simp [isRegistered, lookupSpec, lookupBinding, findB]

theorem register_error_of_registered (s : St) (t : Token) (p : Provider)
    (h : isRegistered s t.symbol = true) :
    register s t p = Except.error (Err.duplicate t.name) := by
  simp [register, h]

theorem register_ok_shaped (s : St) (t : Token) (p : Provider)
    (h : isRegistered s t.symbol = false) (hp : isShaped p = true) :
    ∃ b, installedBinding p = some b ∧
      register s t p = Except.ok { s with registry := (t.symbol, b) :: s.registry } := by
  cases hc : p.useClass <;> cases hv : p.useValue <;> cases hf : p.useFactory <;>
    simp_all [register, installedBinding, isShaped, isClassProvider, isValueProvider,
      isFactoryProvider]

theorem register_ok_elim (s : St) (t : Token) (p : Provider) (s₁ : St)
    (hreg : register s t p = Except.ok s₁) :
    isRegistered s t.symbol = false ∧
      ((installedBinding p = none ∧ s₁ = s) ∨
        ∃ b, installedBinding p = some b ∧
          s₁ = { s with registry := (t.symbol, b) :: s.registry }) := by
  cases h : isRegistered s t.symbol with
  | true => rw [register_error_of_registered s t p h] at hreg; exact absurd hreg (by simp)
  | false =>
    refine ⟨rfl, ?_⟩
    cases hc : p.useClass <;> cases hv : p.useValue <;> cases hf : p.useFactory <;>
      simp_all [register, installedBinding]

theorem register_class_eq (s : St) (t : Token) (c : ClassId) (vo : Option Inst)
    (fo : Option FactoryId) (h : isRegistered s t.symbol = false) :
    register s t ⟨some c, vo, fo⟩ =
      Except.ok { s with registry := (t.symbol, Binding.cls c none) :: s.registry } := by
  simp [register, h]

theorem register_value_eq (s : St) (t : Token) (v : Inst) (fo : Option FactoryId)
    (h : isRegistered s t.symbol = false) :
    register s t ⟨none, some v, fo⟩ =
      Except.ok { s with registry := (t.symbol, Binding.value v) :: s.registry } := by
  simp [register, h]

theorem register_factory_eq (s : St) (t : Token) (f : FactoryId)
    (h : isRegistered s t.symbol = false) :
    register s t ⟨none, none, some f⟩ =
      Except.ok { s with registry := (t.symbol, Binding.factory f none) :: s.registry } := by
  simp [register, h]

theorem lookupBinding_insert (s : St) (r : List (Nat × Binding)) (sym : Nat) (b : Binding) :
    lookupBinding { s with registry := (sym, b) :: r } sym = some b := by
  simp [lookupBinding, findB, List.find?]

theorem lookupBinding_insert_ne (s : St) (r : List (Nat × Binding)) (sym sym₂ : Nat)
    (b : Binding) (hne : ¬ sym = sym₂) :
    lookupBinding { s with registry := (sym, b) :: r } sym₂ =
      lookupBinding { s with registry := r } sym₂ := by
  have hb : (sym == sym₂) = false := by simp [hne]
  simp [lookupBinding, findB, List.find?, hb]

theorem isRegistered_insert (s : St) (r : List (Nat × Binding)) (sym : Nat) (b : Binding) :
    isRegistered { s with registry := (sym, b) :: r } sym = true := by
  simp [isRegistered, List.find?]

/-! ## Resolution lemmas -/

theorem resolve_none (s : St) (sym : Nat) (h : lookupBinding s sym = none) :
    resolve s sym = Except.error Err.unresolved := by
  simp [resolve, h]

theorem resolve_value (s : St) (sym : Nat) (v : Inst)
    (h : lookupBinding s sym = some (Binding.value v)) :
    resolve s sym = Except.ok (v, s) := by
  simp [resolve, h]

theorem resolve_cls_cached (s : St) (sym : Nat) (c : ClassId) (i : Inst)
    (h : lookupBinding s sym = some (Binding.cls c (some i))) :
    resolve s sym = Except.ok (i, s) := by
  simp [resolve, h]

theorem resolve_factory_cached (s : St) (sym : Nat) (f : FactoryId) (i : Inst)
    (h : lookupBinding s sym = some (Binding.factory f (some i))) :
    resolve s sym = Except.ok (i, s) := by
  simp [resolve, h]

theorem resolve_cls_fresh (s : St) (sym : Nat) (c : ClassId)
    (h : lookupBinding s sym = some (Binding.cls c none)) :
    resolve s sym = Except.ok (Inst.alloc s.nextAlloc,
      { s with
        registry := setCacheList s.registry sym (Inst.alloc s.nextAlloc)
        nextAlloc := s.nextAlloc + 1
        classRuns := c :: s.classRuns }) := by
  simp [resolve, h]

theorem resolve_factory_fresh (s : St) (sym : Nat) (f : FactoryId)
    (h : lookupBinding s sym = some (Binding.factory f none)) :
    resolve s sym = Except.ok (Inst.alloc s.nextAlloc,
      { s with
        registry := setCacheList s.registry sym (Inst.alloc s.nextAlloc)
        nextAlloc := s.nextAlloc + 1
        factoryRuns := f :: s.factoryRuns }) := by
  simp [resolve, h]

/-! ## Injection reduction lemmas -/

theorem inject_registered (s : St) (t : Token) (h : isRegistered s t.symbol = true) :
    inject s t = resolve s t.symbol := by
  cases hd : t.defaultProvider <;> simp [inject, hd, h]

theorem inject_default_none (s : St) (t : Token) (hd : t.defaultProvider = none) :
    inject s t = resolve s t.symbol := by
  cases h : isRegistered s t.symbol <;> simp [inject, hd, h]

theorem inject_unregistered_some (s : St) (t : Token) (dp : Provider)
    (h : isRegistered s t.symbol = false) (hd : t.defaultProvider = some dp) :
    inject s t = registerThenResolve s t dp := by
  simp [inject, registerThenResolve, hd, h]

theorem inject_fix_value (s : St) (t : Token) (v : Inst)
    (h : lookupBinding s t.symbol = some (Binding.value v)) :
    inject s t = Except.ok (v, s) := by
  rw [inject_registered s t (isRegistered_of_lookupBinding s t.symbol _ h)]
  exact resolve_value s t.symbol v h

theorem inject_fix_cls (s : St) (t : Token) (c : ClassId) (i : Inst)
    (h : lookupBinding s t.symbol = some (Binding.cls c (some i))) :
    inject s t = Except.ok (i, s) := by
  rw [inject_registered s t (isRegistered_of_lookupBinding s t.symbol _ h)]
  exact resolve_cls_cached s t.symbol c i h

theorem inject_fix_factory (s : St) (t : Token) (f : FactoryId) (i : Inst)
    (h : lookupBinding s t.symbol = some (Binding.factory f (some i))) :
    inject s t = Except.ok (i, s) := by
  rw [inject_registered s t (isRegistered_of_lookupBinding s t.symbol _ h)]
  exact resolve_factory_cached s t.symbol f i h

theorem injectN_fix (n : Nat) (s : St) (t : Token) (i : Inst)
    (h : inject s t = Except.ok (i, s)) :
    injectN n s t = Except.ok (List.replicate n i, s) := by
  induction n with
  | zero => simp [injectN, List.replicate]
  | succ n ih => simp [injectN, h, ih, List.replicate]

/-! ## Cache updates preserve keys and cache-erased bindings -/

theorem specOf_withCache (b : Binding) (i : Inst) : specOf (withCache b i) = specOf b := by
  cases b <;> rfl

theorem setCacheList_countP (l : List (Nat × Binding)) (sym : Nat) (i : Inst) (sym₂ : Nat) :
    (setCacheList l sym i).countP (fun e => e.1 == sym₂) =
      l.countP (fun e => e.1 == sym₂) := by
  induction l with
  | nil => rfl
  | cons hd tl ih =>
    obtain ⟨k, b⟩ := hd
    cases hk : (k == sym) <;> simp [setCacheList, hk, List.countP_cons, ih]

theorem findB_setCacheList_spec (l : List (Nat × Binding)) (sym : Nat) (i : Inst)
    (sym₂ : Nat) :
    (findB (setCacheList l sym i) sym₂).map specOf = (findB l sym₂).map specOf := by
  induction l with
  | nil => rfl
  | cons hd tl ih =>
    obtain ⟨k, b⟩ := hd
    cases hk : (k == sym) <;> cases hk₂ : (k == sym₂) <;>
      simp [setCacheList, findB, List.find?, hk, hk₂, specOf_withCache] <;>
      simpa [findB] using ih

/-! ## State-preservation lemmas for the registered-token invariant -/

theorem resolve_preserve (s : St) (sym : Nat) (i : Inst) (s' : St)
    (h : resolve s sym = Except.ok (i, s')) (sym₂ : Nat) :
    bindingCount s' sym₂ = bindingCount s sym₂ ∧ lookupSpec s' sym₂ = lookupSpec s sym₂ := by
  unfold resolve at h
  cases hb : lookupBinding s sym <;> rw [hb] at h
  · exact absurd h (by simp)
  case some b =>
    cases b with
    | value v => exact ⟨by cases h; rfl, by cases h; rfl⟩
    | cls c cache =>
      cases cache with
      | some j => exact ⟨by cases h; rfl, by cases h; rfl⟩
      | none =>
        cases h
        exact ⟨setCacheList_countP s.registry sym _ sym₂,
          findB_setCacheList_spec s.registry sym _ sym₂⟩
    | factory f cache =>
      cases cache with
      | some j => exact ⟨by cases h; rfl, by cases h; rfl⟩
      | none =>
        cases h
        exact ⟨setCacheList_countP s.registry sym _ sym₂,
          findB_setCacheList_spec s.registry sym _ sym₂⟩

theorem register_preserve (s : St) (t : Token) (p : Provider) (s₁ : St)
    (hreg : register s t p = Except.ok s₁) (sym₂ : Nat) (hne : ¬ t.symbol = sym₂) :
    bindingCount s₁ sym₂ = bindingCount s sym₂ ∧ lookupSpec s₁ sym₂ = lookupSpec s sym₂ := by
  obtain ⟨-, hcase⟩ := register_ok_elim s t p s₁ hreg
  cases hcase with
  | inl hid => rw [hid.2]; exact ⟨rfl, rfl⟩
  | inr hins =>
    obtain ⟨b, -, hs₁⟩ := hins
    subst hs₁
    have hb : (t.symbol == sym₂) = false := by simp [hne]
    constructor
    · simp [bindingCount, List.countP_cons, hb]
    · simp [lookupSpec, lookupBinding, findB, List.find?, hb]

theorem isRegistered_of_lookupSpec (s : St) (sym : Nat)
    (h : (lookupSpec s sym).isSome = true) : isRegistered s sym = true := by
  rw [isRegistered_eq_lookupSpec_isSome]; exact h

theorem runOp_preserve (s : St) (op : Op) (sym : Nat) (h : isRegistered s sym = true) :
    bindingCount (runOp s op) sym = bindingCount s sym ∧
      lookupSpec (runOp s op) sym = lookupSpec s sym ∧
      isRegistered (runOp s op) sym = true := by
  cases op with
  | regOp t p =>
    cases hr : register s t p with
    | error e => simp [runOp, hr, h]
    | ok s' =>
      have hne : ¬ t.symbol = sym := by
        intro he
        have : isRegistered s t.symbol = true := by rw [he]; exact h
        rw [register_error_of_registered s t p this] at hr
        exact absurd hr (by simp)
      obtain ⟨hc, hl⟩ := register_preserve s t p s' hr sym hne
      refine ⟨by simp [runOp, hr, hc], by simp [runOp, hr, hl], ?_⟩
      simp only [runOp, hr]
      rw [isRegistered_eq_lookupSpec_isSome, hl, ← isRegistered_eq_lookupSpec_isSome]
      exact h
  | injOp t =>
    cases hi : inject s t with
    | error e => simp [runOp, hi, h]
    | ok r =>
      obtain ⟨i, s'⟩ := r
      have hmain : bindingCount s' sym = bindingCount s sym ∧
          lookupSpec s' sym = lookupSpec s sym := by
        cases hd : t.defaultProvider with
        | none =>
          rw [inject_default_none s t hd] at hi
          exact resolve_preserve s t.symbol i s' hi sym
        | some dp =>
          cases hreg : isRegistered s t.symbol with
          | true =>
            rw [inject_registered s t hreg] at hi
            exact resolve_preserve s t.symbol i s' hi sym
          | false =>
            rw [inject_unregistered_some s t dp hreg hd] at hi
            unfold registerThenResolve at hi
            cases hr : register s t dp with
            | error e => rw [hr] at hi; exact absurd hi (by simp)
            | ok s'' =>
              rw [hr] at hi
              have hne : ¬ t.symbol = sym := by
                intro he; rw [he] at hreg; rw [hreg] at h; exact absurd h (by simp)
              obtain ⟨hc₁, hl₁⟩ := register_preserve s t dp s'' hr sym hne
              obtain ⟨hc₂, hl₂⟩ := resolve_preserve s'' t.symbol i s' hi sym
              exact ⟨hc₂.trans hc₁, hl₂.trans hl₁⟩
      refine ⟨by simp [runOp, hi, hmain.1], by simp [runOp, hi, hmain.2], ?_⟩
      simp only [runOp, hi]
      rw [isRegistered_eq_lookupSpec_isSome, hmain.2, ← isRegistered_eq_lookupSpec_isSome]
      exact h

theorem runOps_preserve (ops : List Op) (s : St) (sym : Nat)
    (h : isRegistered s sym = true) :
    bindingCount (runOps s ops) sym = bindingCount s sym ∧
      lookupSpec (runOps s ops) sym = lookupSpec s sym ∧
      isRegistered (runOps s ops) sym = true := by
  induction ops generalizing s with
  | nil => exact ⟨rfl, rfl, h⟩
  | cons op rest ih =>
    obtain ⟨hc, hl, hr⟩ := runOp_preserve s op sym h
    obtain ⟨hc', hl', hr'⟩ := ih (runOp s op) hr
    exact ⟨hc'.trans hc, hl'.trans hl, hr'⟩

/-! ## List-level lookup helpers and shared resolution facts -/

theorem findB_cons_self (rest : List (Nat × Binding)) (sym : Nat) (b : Binding) :
    findB ((sym, b) :: rest) sym = some b := by
  simp [findB, List.find?]

theorem isRegistered_eq_findB (s : St) (sym : Nat) :
    isRegistered s sym = (findB s.registry sym).isSome := by
  simp [isRegistered, findB]

theorem bindingCount_zero_of_not_registered (s : St) (sym : Nat)
    (h : isRegistered s sym = false) : bindingCount s sym = 0 := by
  unfold isRegistered at h
  have h' : s.registry.find? (fun e => e.1 == sym) = none := by
    cases hf : s.registry.find? (fun e => e.1 == sym) with
    | none => rfl
    | some e => rw [hf] at h; simp at h
  rw [List.find?_eq_none] at h'
  rw [bindingCount, List.countP_eq_zero]
  exact h'

theorem inject_unbound_no_default (s : St) (t : Token)
    (h : isRegistered s t.symbol = false) (hd : t.defaultProvider = none) :
    inject s t = Except.error Err.unresolved := by
  rw [inject_default_none s t hd]
  exact resolve_none s t.symbol (lookupBinding_eq_none_of_not_registered s t.symbol h)

theorem inject_unbound_with_default (s : St) (t : Token) (dp : Provider)
    (h : isRegistered s t.symbol = false) (hd : t.defaultProvider = some dp)
    (hp : isShaped dp = true) :
    ∃ s', inject s t = Except.ok (derivedInstance dp s, s') := by
  rw [inject_unregistered_some s t dp h hd]
  obtain ⟨b, hb, heq⟩ := register_ok_shaped s t dp h hp
  have hrr : registerThenResolve s t dp =
      resolve { s with registry := (t.symbol, b) :: s.registry } t.symbol := by
    simp [registerThenResolve, heq]
  rw [hrr]
  have hlook : lookupBinding { s with registry := (t.symbol, b) :: s.registry } t.symbol
      = some b := findB_cons_self s.registry t.symbol b
  cases hc : dp.useClass with
  | some c =>
    have hb' : b = Binding.cls c none := by
      rw [installedBinding, hc] at hb
      exact (Option.some_injective _ hb).symm
    subst hb'
    rw [resolve_cls_fresh _ _ c hlook]
    have hder : derivedInstance dp s = Inst.alloc s.nextAlloc := by
      simp [derivedInstance, hc]
    rw [hder]
    exact ⟨_, rfl⟩
  | none =>
    cases hv : dp.useValue with
    | some v =>
      have hb' : b = Binding.value v := by
        rw [installedBinding, hc, hv] at hb
        exact (Option.some_injective _ hb).symm
      subst hb'
      rw [resolve_value _ _ v hlook]
      have hder : derivedInstance dp s = v := by
        simp [derivedInstance, hc, hv]
      rw [hder]
      exact ⟨_, rfl⟩
    | none =>
      cases hf : dp.useFactory with
      | some f =>
        have hb' : b = Binding.factory f none := by
          rw [installedBinding, hc, hv, hf] at hb
          exact (Option.some_injective _ hb).symm
        subst hb'
        rw [resolve_factory_fresh _ _ f hlook]
        have hder : derivedInstance dp s = Inst.alloc s.nextAlloc := by
          simp [derivedInstance, hc, hv]
        rw [hder]
        exact ⟨_, rfl⟩
      | none =>
        rw [isShaped, isClassProvider, isValueProvider, isFactoryProvider, hc, hv, hf] at hp
        simp at hp

/-! ## Claim theorems -/

/-- C1: for a token already bound via a successful `register(T, P)`, a second
call `register(T, P2)` fails with the duplicate-registration error; the
registry keeps the binding installed from P (the failed call produces no new
state), and a subsequent `inject(T)` is plain resolution against that
binding. -/
theorem register_duplicate_rejected (s s₁ : St) (t : Token) (p p₂ : Provider)
    (hp : isShaped p = true) (hreg : register s t p = Except.ok s₁) :
    register s₁ t p₂ = Except.error (Err.duplicate t.name) ∧
      lookupBinding s₁ t.symbol = installedBinding p ∧
      inject s₁ t = resolve s₁ t.symbol := by
  obtain ⟨hfalse, -⟩ := register_ok_elim s t p s₁ hreg
  obtain ⟨b, hb, heq⟩ := register_ok_shaped s t p hfalse hp
  rw [heq] at hreg
  cases hreg
  have hregd : isRegistered { s with registry := (t.symbol, b) :: s.registry } t.symbol
      = true := by
    simp [isRegistered_eq_findB, findB_cons_self]
  refine ⟨register_error_of_registered _ t p₂ hregd, ?_, inject_registered _ t hregd⟩
  rw [hb]
  exact findB_cons_self s.registry t.symbol b

/-- Witness for C1: a value binding for symbol 0 rejects a second provider
and stays resolvable. -/
theorem register_duplicate_rejected_w :
    register ⟨[(0, Binding.value (Inst.val 7))], 0, [], [], 0⟩ ⟨0, "A", none⟩
        ⟨none, some (Inst.val 8), none⟩ = Except.error (Err.duplicate "A") ∧
      lookupBinding ⟨[(0, Binding.value (Inst.val 7))], 0, [], [], 0⟩ 0 =
        installedBinding ⟨none, some (Inst.val 7), none⟩ ∧
      inject ⟨[(0, Binding.value (Inst.val 7))], 0, [], [], 0⟩ ⟨0, "A", none⟩ =
        resolve ⟨[(0, Binding.value (Inst.val 7))], 0, [], [], 0⟩ 0 :=
  register_duplicate_rejected St.empty _ ⟨0, "A", none⟩ ⟨none, some (Inst.val 7), none⟩
    ⟨none, some (Inst.val 8), none⟩ rfl rfl

/-- C2: for an unbound token, `inject` fails with the unresolved-token error
exactly when the token carries no default provider; with a (well-shaped)
default provider it succeeds and returns the instance derived from that
provider (its value for a value provider, the fresh allocation for a class
or factory provider). -/
theorem inject_unresolved_iff_no_default (s : St) (t : Token)
    (h : isRegistered s t.symbol = false) :
    (t.defaultProvider = none → inject s t = Except.error Err.unresolved) ∧
      (∀ dp, t.defaultProvider = some dp → isShaped dp = true →
        ∃ s', inject s t = Except.ok (derivedInstance dp s, s')) :=
  ⟨fun hd => inject_unbound_no_default s t h hd,
   fun dp hd hp => inject_unbound_with_default s t dp h hd hp⟩

/-- Witness for C2: on the empty container, a token without a default
provider fails and a token with a default value provider succeeds. -/
theorem inject_unresolved_iff_no_default_w :
    inject St.empty ⟨0, "L", none⟩ = Except.error Err.unresolved ∧
      ∃ s', inject St.empty ⟨1, "M", some ⟨none, some (Inst.val 3), none⟩⟩ =
        Except.ok (derivedInstance ⟨none, some (Inst.val 3), none⟩ St.empty, s') :=
  ⟨(inject_unresolved_iff_no_default St.empty ⟨0, "L", none⟩ rfl).1 rfl,
   (inject_unresolved_iff_no_default St.empty
      ⟨1, "M", some ⟨none, some (Inst.val 3), none⟩⟩ rfl).2
     ⟨none, some (Inst.val 3), none⟩ rfl rfl⟩

/-- C8: for an unbound token with a default provider, `inject` is exactly the
program that first registers the default provider and then resolves the
token: the two produce the same result and the same final state. -/
theorem inject_refines_register_then_resolve (s : St) (t : Token) (dp : Provider)
    (h : isRegistered s t.symbol = false) (hd : t.defaultProvider = some dp) :
    inject s t = registerThenResolve s t dp :=
  inject_unregistered_some s t dp h hd

/-- Witness for C8 with a default class provider on the empty container. -/
theorem inject_refines_register_then_resolve_w :
    inject St.empty ⟨0, "R", some ⟨some 4, none, none⟩⟩ =
      registerThenResolve St.empty ⟨0, "R", some ⟨some 4, none, none⟩⟩
        ⟨some 4, none, none⟩ :=
  inject_refines_register_then_resolve St.empty ⟨0, "R", some ⟨some 4, none, none⟩⟩
    ⟨some 4, none, none⟩ rfl rfl

/-! ## Explicit first-resolution states for freshly installed bindings -/

theorem resolve_factory_head (s : St) (sym : Nat) (f : FactoryId)
    (r : List (Nat × Binding)) (h : s.registry = (sym, Binding.factory f none) :: r) :
    resolve s sym = Except.ok (Inst.alloc s.nextAlloc,
      { s with
        registry := (sym, Binding.factory f (some (Inst.alloc s.nextAlloc))) :: r
        nextAlloc := s.nextAlloc + 1
        factoryRuns := f :: s.factoryRuns }) := by
  have hlook : lookupBinding s sym = some (Binding.factory f none) := by
    rw [lookupBinding, h]; exact findB_cons_self r sym _
  rw [resolve_factory_fresh s sym f hlook, h]
  simp [setCacheList, withCache]

theorem resolve_cls_head (s : St) (sym : Nat) (c : ClassId)
    (r : List (Nat × Binding)) (h : s.registry = (sym, Binding.cls c none) :: r) :
    resolve s sym = Except.ok (Inst.alloc s.nextAlloc,
      { s with
        registry := (sym, Binding.cls c (some (Inst.alloc s.nextAlloc))) :: r
        nextAlloc := s.nextAlloc + 1
        classRuns := c :: s.classRuns }) := by
  have hlook : lookupBinding s sym = some (Binding.cls c none) := by
    rw [lookupBinding, h]; exact findB_cons_self r sym _
  rw [resolve_cls_fresh s sym c hlook, h]
  simp [setCacheList, withCache]

/-- C3: after registering a factory provider, any positive number of
`inject` calls returns the same freshly produced instance every time, and
the factory's ghost invocation count rises by exactly one across the whole
sequence: the factory runs once, on the first resolution. -/
theorem factory_invoked_once (s s₁ : St) (t : Token) (f : FactoryId) (n : Nat)
    (hreg : register s t ⟨none, none, some f⟩ = Except.ok s₁) :
    ∃ s₂, injectN (n + 1) s₁ t =
        Except.ok (List.replicate (n + 1) (Inst.alloc s₁.nextAlloc), s₂) ∧
      s₂.factoryRuns.count f = s₁.factoryRuns.count f + 1 := by
  obtain ⟨hfalse, -⟩ := register_ok_elim s t ⟨none, none, some f⟩ s₁ hreg
  rw [register_factory_eq s t f hfalse] at hreg
  cases hreg
  refine ⟨{ s with
      registry := (t.symbol, Binding.factory f (some (Inst.alloc s.nextAlloc))) :: s.registry
      nextAlloc := s.nextAlloc + 1
      factoryRuns := f :: s.factoryRuns }, ?_, ?_⟩
  · have hregd : isRegistered
        { s with registry := (t.symbol, Binding.factory f none) :: s.registry } t.symbol
        = true := by
      simp [isRegistered_eq_findB, findB_cons_self]
    have h1 : inject { s with registry := (t.symbol, Binding.factory f none) :: s.registry } t
        = Except.ok (Inst.alloc s.nextAlloc,
          { s with
            registry :=
              (t.symbol, Binding.factory f (some (Inst.alloc s.nextAlloc))) :: s.registry
            nextAlloc := s.nextAlloc + 1
            factoryRuns := f :: s.factoryRuns }) := by
      rw [inject_registered _ t hregd]
      exact resolve_factory_head _ t.symbol f s.registry rfl
    have h2 : inject
        { s with
          registry :=
            (t.symbol, Binding.factory f (some (Inst.alloc s.nextAlloc))) :: s.registry
          nextAlloc := s.nextAlloc + 1
          factoryRuns := f :: s.factoryRuns } t
        = Except.ok (Inst.alloc s.nextAlloc,
          { s with
            registry :=
              (t.symbol, Binding.factory f (some (Inst.alloc s.nextAlloc))) :: s.registry
            nextAlloc := s.nextAlloc + 1
            factoryRuns := f :: s.factoryRuns }) :=
      inject_fix_factory _ t f _ (findB_cons_self s.registry t.symbol _)
    have h3 := injectN_fix n _ t _ h2
    simp [injectN, h1, h3, List.replicate_succ]
  · exact List.count_cons_self f s.factoryRuns

/-- Witness for C3: two injections of a registered factory both give the
first allocation and the factory run count rises from zero to one. -/
theorem factory_invoked_once_w :
    ∃ s₂, injectN 2 ⟨[(0, Binding.factory 9 none)], 0, [], [], 0⟩ ⟨0, "F", none⟩ =
        Except.ok (List.replicate 2 (Inst.alloc 0), s₂) ∧
      s₂.factoryRuns.count 9 = ([] : List FactoryId).count 9 + 1 :=
  factory_invoked_once St.empty _ ⟨0, "F", none⟩ 9 1 rfl

/-- C4: after registering a value provider, every `inject` call across any
number of calls returns exactly the registered instance (reference
identity, modelled by `Inst` equality), and the container state does not
change at all. -/
theorem value_provider_reference_identity (s s₁ : St) (t : Token) (v : Inst) (n : Nat)
    (hreg : register s t ⟨none, some v, none⟩ = Except.ok s₁) :
    injectN (n + 1) s₁ t = Except.ok (List.replicate (n + 1) v, s₁) := by
  obtain ⟨hfalse, -⟩ := register_ok_elim s t ⟨none, some v, none⟩ s₁ hreg
  rw [register_value_eq s t v none hfalse] at hreg
  cases hreg
  exact injectN_fix (n + 1) _ t v
    (inject_fix_value _ t v (findB_cons_self s.registry t.symbol _))

/-- Witness for C4: two injections of a registered value both return it. -/
theorem value_provider_reference_identity_w :
    injectN 2 ⟨[(0, Binding.value (Inst.val 5))], 0, [], [], 0⟩ ⟨0, "V", none⟩ =
      Except.ok (List.replicate 2 (Inst.val 5),
        ⟨[(0, Binding.value (Inst.val 5))], 0, [], [], 0⟩) :=
  value_provider_reference_identity St.empty _ ⟨0, "V", none⟩ (Inst.val 5) 1 rfl

/-- C5: after registering a class provider, every `inject` call returns the
same singleton instance (the one produced by the first resolution), and the
class's ghost constructor-run count rises by exactly one across any positive
number of calls: the constructor runs once until the next reset. -/
theorem class_provider_singleton (s s₁ : St) (t : Token) (c : ClassId) (n : Nat)
    (hreg : register s t ⟨some c, none, none⟩ = Except.ok s₁) :
    ∃ s₂, injectN (n + 1) s₁ t =
        Except.ok (List.replicate (n + 1) (Inst.alloc s₁.nextAlloc), s₂) ∧
      s₂.classRuns.count c = s₁.classRuns.count c + 1 := by
  obtain ⟨hfalse, -⟩ := register_ok_elim s t ⟨some c, none, none⟩ s₁ hreg
  rw [register_class_eq s t c none none hfalse] at hreg
  cases hreg
  refine ⟨{ s with
      registry := (t.symbol, Binding.cls c (some (Inst.alloc s.nextAlloc))) :: s.registry
      nextAlloc := s.nextAlloc + 1
      classRuns := c :: s.classRuns }, ?_, ?_⟩
  · have hregd : isRegistered
        { s with registry := (t.symbol, Binding.cls c none) :: s.registry } t.symbol
        = true := by
      simp [isRegistered_eq_findB, findB_cons_self]
    have h1 : inject { s with registry := (t.symbol, Binding.cls c none) :: s.registry } t
        = Except.ok (Inst.alloc s.nextAlloc,
          { s with
            registry := (t.symbol, Binding.cls c (some (Inst.alloc s.nextAlloc))) :: s.registry
            nextAlloc := s.nextAlloc + 1
            classRuns := c :: s.classRuns }) := by
      rw [inject_registered _ t hregd]
      exact resolve_cls_head _ t.symbol c s.registry rfl
    have h2 : inject
        { s with
          registry := (t.symbol, Binding.cls c (some (Inst.alloc s.nextAlloc))) :: s.registry
          nextAlloc := s.nextAlloc + 1
          classRuns := c :: s.classRuns } t
        = Except.ok (Inst.alloc s.nextAlloc,
          { s with
            registry := (t.symbol, Binding.cls c (some (Inst.alloc s.nextAlloc))) :: s.registry
            nextAlloc := s.nextAlloc + 1
            classRuns := c :: s.classRuns }) :=
      inject_fix_cls _ t c _ (findB_cons_self s.registry t.symbol _)
    have h3 := injectN_fix n _ t _ h2
    simp [injectN, h1, h3, List.replicate_succ]
  · exact List.count_cons_self c s.classRuns

/-- Witness for C5: two injections of a registered class provider both give
the singleton and the constructor run count rises from zero to one. -/
theorem class_provider_singleton_w :
    ∃ s₂, injectN 2 ⟨[(0, Binding.cls 4 none)], 0, [], [], 0⟩ ⟨0, "C", none⟩ =
        Except.ok (List.replicate 2 (Inst.alloc 0), s₂) ∧
      s₂.classRuns.count 4 = ([] : List ClassId).count 4 + 1 :=
  class_provider_singleton St.empty _ ⟨0, "C", none⟩ 4 1 rfl

/-- C6: after `reset`, every token is unbound: the registration query is
false, a register call for any well-shaped provider succeeds (no duplicate
error) and installs a binding, and `inject` either fails with the
unresolved-token error (no default provider) or re-triggers default-provider
auto-registration and succeeds. -/
theorem reset_unbinds_all (s : St) (t : Token) (p : Provider) :
    isRegistered (reset s) t.symbol = false ∧
      (isShaped p = true →
        ∃ s', register (reset s) t p = Except.ok s' ∧ isRegistered s' t.symbol = true) ∧
      (t.defaultProvider = none → inject (reset s) t = Except.error Err.unresolved) ∧
      (∀ dp, t.defaultProvider = some dp → isShaped dp = true →
        ∃ s', inject (reset s) t = Except.ok (derivedInstance dp (reset s), s')) := by
  have h0 : isRegistered (reset s) t.symbol = false := by
    simp [reset, isRegistered]
  refine ⟨h0, ?_, fun hd => inject_unbound_no_default _ t h0 hd,
    fun dp hd hp => inject_unbound_with_default _ t dp h0 hd hp⟩
  intro hp
  obtain ⟨b, -, heq⟩ := register_ok_shaped (reset s) t p h0 hp
  exact ⟨_, heq, by simp [isRegistered_eq_findB, findB_cons_self]⟩

/-- Witness for C6: resetting a one-binding container unbinds symbol 0,
allows re-registration, makes a defaultless token fail, and re-triggers a
default value provider on another token. -/
theorem reset_unbinds_all_w :
    isRegistered (reset ⟨[(0, Binding.value (Inst.val 7))], 3, [], [], 0⟩) 0 = false ∧
      (∃ s', register (reset ⟨[(0, Binding.value (Inst.val 7))], 3, [], [], 0⟩)
          ⟨0, "A", none⟩ ⟨none, some (Inst.val 8), none⟩ = Except.ok s' ∧
        isRegistered s' 0 = true) ∧
      inject (reset ⟨[(0, Binding.value (Inst.val 7))], 3, [], [], 0⟩) ⟨0, "A", none⟩ =
        Except.error Err.unresolved ∧
      ∃ s', inject (reset ⟨[(0, Binding.value (Inst.val 7))], 3, [], [], 0⟩)
          ⟨1, "B", some ⟨none, some (Inst.val 2), none⟩⟩ =
        Except.ok (derivedInstance ⟨none, some (Inst.val 2), none⟩
          (reset ⟨[(0, Binding.value (Inst.val 7))], 3, [], [], 0⟩), s') :=
  ⟨(reset_unbinds_all ⟨[(0, Binding.value (Inst.val 7))], 3, [], [], 0⟩ ⟨0, "A", none⟩
      ⟨none, some (Inst.val 8), none⟩).1,
   (reset_unbinds_all ⟨[(0, Binding.value (Inst.val 7))], 3, [], [], 0⟩ ⟨0, "A", none⟩
      ⟨none, some (Inst.val 8), none⟩).2.1 rfl,
   (reset_unbinds_all ⟨[(0, Binding.value (Inst.val 7))], 3, [], [], 0⟩ ⟨0, "A", none⟩
      ⟨none, some (Inst.val 8), none⟩).2.2.1 rfl,
   (reset_unbinds_all ⟨[(0, Binding.value (Inst.val 7))], 3, [], [], 0⟩
      ⟨1, "B", some ⟨none, some (Inst.val 2), none⟩⟩
      ⟨none, some (Inst.val 8), none⟩).2.2.2 ⟨none, some (Inst.val 2), none⟩ rfl rfl⟩

/-- C7: after a successful `register` with a well-shaped provider, exactly
one binding exists for the token, and across every later sequence of
register and inject calls (reset excluded) the count stays one and the
cache-erased binding stays the one installed from the provider. -/
theorem register_binding_stable (s s₁ : St) (t : Token) (p : Provider) (ops : List Op)
    (hp : isShaped p = true) (hreg : register s t p = Except.ok s₁) :
    bindingCount (runOps s₁ ops) t.symbol = 1 ∧
      lookupSpec (runOps s₁ ops) t.symbol = (installedBinding p).map specOf := by
  obtain ⟨hfalse, -⟩ := register_ok_elim s t p s₁ hreg
  obtain ⟨b, hb, heq⟩ := register_ok_shaped s t p hfalse hp
  rw [heq] at hreg
  cases hreg
  have hcount0 : s.registry.countP (fun e => e.1 == t.symbol) = 0 :=
    bindingCount_zero_of_not_registered s t.symbol hfalse
  have hregd : isRegistered { s with registry := (t.symbol, b) :: s.registry } t.symbol
      = true := by
    simp [isRegistered_eq_findB, findB_cons_self]
  obtain ⟨hc, hl, -⟩ := runOps_preserve ops _ t.symbol hregd
  constructor
  · rw [hc]
    simp [bindingCount, List.countP_cons, hcount0]
  · rw [hl, hb]
    simp [lookupSpec, lookupBinding, findB_cons_self]

/-- Witness for C7: a value binding for symbol 0 stays the unique binding
through an inject and a rejected re-register. -/
theorem register_binding_stable_w :
    bindingCount (runOps ⟨[(0, Binding.value (Inst.val 7))], 0, [], [], 0⟩
        [Op.injOp ⟨0, "A", none⟩, Op.regOp ⟨0, "A", none⟩ ⟨some 3, none, none⟩]) 0 = 1 ∧
      lookupSpec (runOps ⟨[(0, Binding.value (Inst.val 7))], 0, [], [], 0⟩
          [Op.injOp ⟨0, "A", none⟩, Op.regOp ⟨0, "A", none⟩ ⟨some 3, none, none⟩]) 0 =
        (installedBinding ⟨none, some (Inst.val 7), none⟩).map specOf :=
  register_binding_stable St.empty _ ⟨0, "A", none⟩ ⟨none, some (Inst.val 7), none⟩
    [Op.injOp ⟨0, "A", none⟩, Op.regOp ⟨0, "A", none⟩ ⟨some 3, none, none⟩] rfl rfl

theorem createTokens_map_symbol (specs : List (String × Option Provider)) (s : St) :
    (createTokens s specs).1.map Token.symbol = List.range' s.tokenCounter specs.length := by
  induction specs generalizing s with
  | nil => rfl
  | cons hd tl ih =>
    obtain ⟨nm, dp⟩ := hd
    simp [createTokens, createInjectionToken, List.range'_succ, ih]

/-- C9: every `createInjectionToken` call yields a token whose symbol is
distinct from that of every other created token (the symbols of any creation
sequence are pairwise distinct), even for the same debug name and the same
default provider; and registering the first of two same-named tokens leaves
the registration state of the second one unchanged. -/
theorem createInjectionToken_fresh_identity (s s₀ : St)
    (specs : List (String × Option Provider)) (name : String) (dp : Option Provider)
    (p : Provider) :
    ((createTokens s specs).1.map Token.symbol).Nodup ∧
      ((createInjectionToken s name dp).1).symbol ≠
        ((createInjectionToken (createInjectionToken s name dp).2 name dp).1).symbol ∧
      isRegistered (runOp s₀ (Op.regOp (createInjectionToken s name dp).1 p))
          ((createInjectionToken (createInjectionToken s name dp).2 name dp).1).symbol =
        isRegistered s₀
          ((createInjectionToken (createInjectionToken s name dp).2 name dp).1).symbol := by
  refine ⟨?_, ?_, ?_⟩
  · rw [createTokens_map_symbol]
    exact List.nodup_range' _ _
  · simp only [createInjectionToken]
    omega
  · cases hr : register s₀ (createInjectionToken s name dp).1 p with
    | error e => simp [runOp, hr]
    | ok s' =>
      have hne : ¬ ((createInjectionToken s name dp).1).symbol =
          ((createInjectionToken (createInjectionToken s name dp).2 name dp).1).symbol := by
        simp only [createInjectionToken]
        omega
      obtain ⟨-, hl⟩ := register_preserve s₀ _ p s' hr _ hne
      simp only [runOp, hr]
      rw [isRegistered_eq_lookupSpec_isSome, hl, ← isRegistered_eq_lookupSpec_isSome]

/-- Witness for C9 at concrete states: two same-named tokens with the same
default provider get distinct symbols, and registering the first does not
bind the second. -/
theorem createInjectionToken_fresh_identity_w :
    ((createTokens St.empty [("N", none), ("N", none)]).1.map Token.symbol).Nodup ∧
      ((createInjectionToken St.empty "N" none).1).symbol ≠
        ((createInjectionToken (createInjectionToken St.empty "N" none).2 "N" none).1).symbol ∧
      isRegistered (runOp St.empty
          (Op.regOp (createInjectionToken St.empty "N" none).1 ⟨some 1, none, none⟩))
          ((createInjectionToken (createInjectionToken St.empty "N" none).2 "N" none).1).symbol =
        isRegistered St.empty
          ((createInjectionToken (createInjectionToken St.empty "N" none).2 "N" none).1).symbol :=
  createInjectionToken_fresh_identity St.empty St.empty [("N", none), ("N", none)] "N" none
    ⟨some 1, none, none⟩

/-- C10: provider shapes are discriminated by field presence in the order
`useClass`, `useValue`, `useFactory`: whatever the other fields hold, a
defined `useClass` installs the class binding (the first inject allocates a
fresh instance and runs the constructor, and no factory ever runs), and with
`useClass` absent a defined `useValue` installs the value binding (inject
returns the value unchanged) regardless of `useFactory`. -/
theorem provider_discrimination_order (s : St) (t : Token) (c : ClassId) (v : Inst)
    (h : isRegistered s t.symbol = false) :
    (∀ vo fo s₁, register s t ⟨some c, vo, fo⟩ = Except.ok s₁ →
      lookupBinding s₁ t.symbol = some (Binding.cls c none) ∧
        ∃ s₂, inject s₁ t = Except.ok (Inst.alloc s₁.nextAlloc, s₂) ∧
          s₂.classRuns = c :: s₁.classRuns ∧ s₂.factoryRuns = s₁.factoryRuns) ∧
      (∀ fo s₁, register s t ⟨none, some v, fo⟩ = Except.ok s₁ →
        lookupBinding s₁ t.symbol = some (Binding.value v) ∧
          inject s₁ t = Except.ok (v, s₁)) := by
  constructor
  · intro vo fo s₁ hreg
    rw [register_class_eq s t c vo fo h] at hreg
    cases hreg
    refine ⟨findB_cons_self s.registry t.symbol _,
      { s with
        registry := (t.symbol, Binding.cls c (some (Inst.alloc s.nextAlloc))) :: s.registry
        nextAlloc := s.nextAlloc + 1
        classRuns := c :: s.classRuns }, ?_, rfl, rfl⟩
    have hregd : isRegistered
        { s with registry := (t.symbol, Binding.cls c none) :: s.registry } t.symbol
        = true := by
      simp [isRegistered_eq_findB, findB_cons_self]
    rw [inject_registered _ t hregd]
    exact resolve_cls_head _ t.symbol c s.registry rfl
  · intro fo s₁ hreg
    rw [register_value_eq s t v fo h] at hreg
    cases hreg
    exact ⟨findB_cons_self s.registry t.symbol _,
      inject_fix_value _ t v (findB_cons_self s.registry t.symbol _)⟩

/-- Witness for C10: with all three fields defined, the class binding wins
(fresh allocation, constructor logged, no factory run); with `useClass`
absent, `useValue` wins over `useFactory` (the value comes back, state
untouched). -/
theorem provider_discrimination_order_w :
    (lookupBinding ⟨[(0, Binding.cls 4 none)], 0, [], [], 0⟩ 0 = some (Binding.cls 4 none) ∧
      ∃ s₂, inject ⟨[(0, Binding.cls 4 none)], 0, [], [], 0⟩ ⟨0, "P", none⟩ =
          Except.ok (Inst.alloc 0, s₂) ∧
        s₂.classRuns = 4 :: ([] : List ClassId) ∧ s₂.factoryRuns = ([] : List FactoryId)) ∧
      (lookupBinding ⟨[(0, Binding.value (Inst.val 6))], 0, [], [], 0⟩ 0 =
          some (Binding.value (Inst.val 6)) ∧
        inject ⟨[(0, Binding.value (Inst.val 6))], 0, [], [], 0⟩ ⟨0, "P", none⟩ =
          Except.ok (Inst.val 6, ⟨[(0, Binding.value (Inst.val 6))], 0, [], [], 0⟩)) :=
  ⟨(provider_discrimination_order St.empty ⟨0, "P", none⟩ 4 (Inst.val 6) rfl).1
      (some (Inst.val 6)) (some 9) ⟨[(0, Binding.cls 4 none)], 0, [], [], 0⟩ rfl,
   (provider_discrimination_order St.empty ⟨0, "P", none⟩ 4 (Inst.val 6) rfl).2
      (some 9) ⟨[(0, Binding.value (Inst.val 6))], 0, [], [], 0⟩ rfl⟩
